import Mathlib

/-!
Shallow embedding of the Submit-a-text service (src/main.py, src/db.py).

The service is a set of straight-line HTTP handlers over a relational
store.  We embed the JSON values the handlers manipulate, the database
state as lists of rows, and each handler as a state-transforming
function.  Python exceptions (AttributeError / TypeError raised by
calling `.get`, `.strip` or `re.sub` on a non-dict / non-string value,
and `requests` exceptions) are modelled with `Except PyErr`.  Strings
are modelled at ASCII granularity: a digit is an ASCII digit, upper-case
and whitespace are the ASCII notions.
-/

/-- JSON values, as Python represents a parsed request or response body.
Numbers are modelled as integers (no claim depends on floats). -/
inductive Json where
  | null : Json
  | bool (b : Bool) : Json
  | num (n : Int) : Json
  | str (s : String) : Json
  | arr (xs : List Json) : Json
  | obj (fields : List (String × Json)) : Json

/-- The Python exceptions the handlers can raise or catch:
`requestException` stands for `requests.exceptions.RequestException`
(the class caught in `send_sms_via_telnyx`), `other` for any other
exception (AttributeError, TypeError, ...). -/
inductive PyErr where
  | requestException : PyErr
  | other : PyErr
deriving DecidableEq, Repr

/-- Python `v.get(k, d)`: on a dict, the value under `k` if the key is
present (even when that value is `None`), else the default `d`; on any
non-dict value, an AttributeError. -/
def pyGet (v : Json) (k : String) (d : Json) : Except PyErr Json :=
  match v with
  | Json.obj fields => Except.ok ((fields.lookup k).getD d)
  | _ => Except.error PyErr.other

/-- Python truthiness of a JSON value (`raw or ""` in `normalize_phone`). -/
def pyTruthy (v : Json) : Bool :=
  match v with
  | Json.null => false
  | Json.bool b => b
  | Json.num n => n != 0
  | Json.str s => s != ""
  | Json.arr xs => !xs.isEmpty
  | Json.obj fields => !fields.isEmpty

/-- `re.sub(r"\D", "", s)`: keep only the (ASCII) digit characters. -/
def stripNonDigits (s : String) : String :=
  String.mk (s.data.filter Char.isDigit)

/-- Python `s.strip()` at ASCII granularity: drop leading and trailing
whitespace. -/
def pyStrip (s : String) : String :=
  String.mk (((s.data.dropWhile Char.isWhitespace).reverse.dropWhile
    Char.isWhitespace).reverse)

/-- Python `s.upper()` at ASCII granularity. -/
def pyUpper (s : String) : String :=
  String.mk (s.data.map Char.toUpper)

/-- `normalize_phone` (src/main.py:34-41) on a string-or-None input
(`none` stands for Python `None` or an absent key; `raw or ""` maps it
to `""`).  Strip non-digits; 10 digits get a `+1` prefixed, 11 digits
starting with `1` get a `+` prefixed, anything else also gets a `+`
prefixed onto the raw digit string. -/
def normalize_phone (raw : Option String) : String :=
  let digits := stripNonDigits (raw.getD "")
  if digits.length = 10 then "+1" ++ digits
  else if digits.length = 11 ∧ digits.data.head? = some '1' then "+" ++ digits
  else "+" ++ digits

/-- `normalize_phone` as called on an arbitrary JSON value, the way
`inbound_sms` calls it on `data.get("from", {}).get("phone_number")`:
a falsy value is replaced by `""`; a truthy non-string makes `re.sub`
raise a TypeError. -/
def normalize_phone_j (raw : Json) : Except PyErr String :=
  if pyTruthy raw then
    match raw with
    | Json.str s => Except.ok (normalize_phone (some s))
    | _ => Except.error PyErr.other
  else
    Except.ok (normalize_phone (some ""))

/-- The outcome of the single `requests.post` to the Telnyx API: either
a transport failure (connection error, timeout, ... — a
RequestException), or an HTTP response with its final status code and
parsed JSON body. -/
inductive GatewayOutcome where
  | networkError : GatewayOutcome
  | httpResponse (status : Nat) (body : Json) : GatewayOutcome

/-- The synthetic response `send_sms_via_telnyx` fabricates on failure. -/
def failedJson : Json :=
  Json.obj [("data", Json.obj [("id", Json.str "FAILED")])]

/-- The body of the `try` block in `send_sms_via_telnyx`
(src/main.py:61-65): `requests.post` itself raises a RequestException on
transport failure; `response.raise_for_status()` raises an HTTPError (a
RequestException) exactly when the status code is in [400, 600);
otherwise the parsed body is returned. -/
def telnyxTryBody (o : GatewayOutcome) : Except PyErr Json :=
  match o with
  | GatewayOutcome.networkError => Except.error PyErr.requestException
  | GatewayOutcome.httpResponse status body =>
    if 400 ≤ status ∧ status < 600 then Except.error PyErr.requestException
    else Except.ok body

/-- `send_sms_via_telnyx` (src/main.py:44-68): run the try block; the
`except requests.exceptions.RequestException` clause turns the failure
into the sentinel `{"data": {"id": "FAILED"}}`.  (The try body only
ever raises RequestException, so the catch-all here is faithful; see
`send_sms_error_contract`.) -/
def send_sms_via_telnyx (o : GatewayOutcome) : Json :=
  match telnyxTryBody o with
  | Except.ok j => j
  | Except.error _ => failedJson

/-- True exactly when the gateway call fails, i.e. when the try block
raises: transport error or status in [400, 600). -/
def gatewayFails (o : GatewayOutcome) : Bool :=
  match o with
  | GatewayOutcome.networkError => true
  | GatewayOutcome.httpResponse status _ => decide (400 ≤ status ∧ status < 600)

/-- One row of the `sales` table.  `id` is the database-assigned serial
key; the six mutable business fields arrive as JSON strings (or null /
absent, hence `Option String`).  `opted_out` defaults to false on
insert: the INSERT in `new_sale` does not list the column, the default
comes from the schema, which is external to src/ and is taken from the
spec ("opted-out flag (boolean, default false)").  The `created_on`
timestamp column is only read by the admin listing and is not modelled. -/
structure Sale where
  id : Nat
  external_sale_id : Option String
  phone : String
  agent_name : Option String
  office : Option String
  source : Option String
  health_id : Option String
  plan_type : Option String
  opted_out : Bool
deriving DecidableEq, Repr

/-- One row of `outbound_messages`.  `provider_sid` is whatever JSON
value `new_sale` extracted from the gateway response (normally a string,
`"FAILED"` on failure). -/
structure OutboundMessage where
  sale_id : Nat
  body : String
  provider : String
  provider_sid : Json

/-- One row of `inbound_messages`.  `sale_id` is null when the sender
phone matched no Sale; `body` is the raw JSON value found under
`data.payload.text`. -/
structure InboundMessage where
  sale_id : Option Nat
  from_phone : String
  body : Json

/-- The database state: the three tables, plus the next serial `id` the
store will assign to an inserted Sale (`INSERT ... RETURNING id`). -/
structure DB where
  sales : List Sale
  outbound : List OutboundMessage
  inbound : List InboundMessage
  nextSaleId : Nat

/-- The JSON body of a `/api/new-sale` request: `body.get("phone")`,
`body.get("saleId")`, ... — `none` stands for an absent key or a null
value (both make Python's `.get` return `None`). -/
structure SaleRequest where
  phone : Option String
  saleId : Option String
  agent : Option String
  office : Option String
  source : Option String
  healthId : Option String
  planType : Option String
deriving DecidableEq, Repr

/-- The JSON object `new_sale` responds with.  The opt-out
short-circuit response carries only `ok`, `skipped_send` and `reason`;
the send-path response carries `ok`, `sale_id`, `sent_to`,
`provider_sid` and `skipped_send` — absent keys are `none`. -/
structure NewSaleResponse where
  ok : Bool
  sale_id : Option Nat
  sent_to : Option String
  provider_sid : Option Json
  skipped_send : Bool
  reason : Option String

/-- The JSON object `inbound_sms` responds with: `{"ok": True}`. -/
structure InboundResponse where
  ok : Bool
deriving DecidableEq, Repr

/-- The fixed confirmation text `new_sale` sends (src/main.py:201-204). -/
def text_msg : String :=
  "Thank you for enrolling! We\x27re here to help with your coverage. Reply STOP to opt out."

/-- `outbound_resp.get("data", {}).get("id", "FAILED")`
(src/main.py:207): raises AttributeError when the response, or the
value under `"data"`, is not a JSON object. -/
def extract_provider_sid (resp : Json) : Except PyErr Json :=
  match pyGet resp "data" (Json.obj []) with
  | Except.error e => Except.error e
  | Except.ok d => pyGet d "id" (Json.str "FAILED")

/-- The field overwrite performed by the UPDATE in `new_sale`
(src/main.py:157-178): the six mutable columns take the request's
values; `id`, `phone`, `opted_out` (and `created_on`) are untouched. -/
def updFields (b : SaleRequest) (t : Sale) : Sale :=
  { t with
    external_sale_id := b.saleId
    agent_name := b.agent
    office := b.office
    source := b.source
    health_id := b.healthId
    plan_type := b.planType }

/-- The row built by the INSERT in `new_sale` (src/main.py:180-198):
all supplied fields plus the normalized phone; `opted_out` takes its
schema default false; the store assigns `db.nextSaleId` and returns it. -/
def insertedSale (db : DB) (b : SaleRequest) (p : String) : Sale :=
  { id := db.nextSaleId
    external_sale_id := b.saleId
    phone := p
    agent_name := b.agent
    office := b.office
    source := b.source
    health_id := b.healthId
    plan_type := b.planType
    opted_out := false }

/-- The tail of `new_sale` after the upsert (src/main.py:200-223): call
the gateway, extract the provider id (this `.get` chain is the only
statement of the handler that can raise), insert the OutboundMessage
row, and build the success response. -/
def sendAndRecord (db : DB) (sale_id : Nat) (clean_phone : String)
    (gw : GatewayOutcome) : DB × Except PyErr NewSaleResponse :=
  let outbound_resp := send_sms_via_telnyx gw
  match extract_provider_sid outbound_resp with
  | Except.error e => (db, Except.error e)
  | Except.ok sid =>
    let db2 := { db with outbound := db.outbound ++
      [{ sale_id := sale_id, body := text_msg, provider := "telnyx",
         provider_sid := sid }] }
    (db2, Except.ok
      { ok := true
        sale_id := some sale_id
        sent_to := some clean_phone
        provider_sid := some sid
        skipped_send := false
        reason := none })

/-- The `/api/new-sale` handler (src/main.py:133-223).  Normalize the
phone, look the Sale up by phone; skip on opt-out, else update in place
or insert, then send and record.  The first component of the result is
the database state when the handler returns or raises (every write is
committed as it executes). -/
def new_sale (db : DB) (b : SaleRequest) (gw : GatewayOutcome) :
    DB × Except PyErr NewSaleResponse :=
  let clean_phone := normalize_phone b.phone
  match db.sales.find? (fun s => s.phone == clean_phone) with
  | some s =>
    if s.opted_out then
      (db, Except.ok
        { ok := true
          sale_id := none
          sent_to := none
          provider_sid := none
          skipped_send := true
          reason := some "opted_out" })
    else
      let upd := fun t => if t.id == s.id then updFields b t else t
      let db1 := { db with sales := db.sales.map upd }
      sendAndRecord db1 s.id clean_phone gw
  | none =>
    let db1 := { db with
      sales := db.sales ++ [insertedSale db b clean_phone]
      nextSaleId := db.nextSaleId + 1 }
    sendAndRecord db1 db.nextSaleId clean_phone gw

/-- The field extraction at the top of `inbound_sms`
(src/main.py:235-239): `payload.get("data", {}).get("payload", {})`,
then `data.get("from", {}).get("phone_number")` and
`data.get("text", "")`.  Returns the raw `from` phone value and the raw
text value, or the first AttributeError the chain raises. -/
def inbound_fields (payload : Json) : Except PyErr (Json × Json) :=
  match pyGet payload "data" (Json.obj []) with
  | Except.error e => Except.error e
  | Except.ok d0 =>
    match pyGet d0 "payload" (Json.obj []) with
    | Except.error e => Except.error e
    | Except.ok data =>
      match pyGet data "from" (Json.obj []) with
      | Except.error e => Except.error e
      | Except.ok fromv =>
        match pyGet fromv "phone_number" Json.null with
        | Except.error e => Except.error e
        | Except.ok from_phone =>
          match pyGet data "text" (Json.str "") with
          | Except.error e => Except.error e
          | Except.ok t => Except.ok (from_phone, t)

/-- Python `body.strip().upper()` (src/main.py:251): raises an
AttributeError unless `body` is a string. -/
def pyStripUpper (v : Json) : Except PyErr String :=
  match v with
  | Json.str s => Except.ok (pyUpper (pyStrip s))
  | _ => Except.error PyErr.other

/-- The `/api/inbound-sms` handler (src/main.py:230-254).  Extract the
sender phone and text, normalize, look the Sale up by phone, insert the
InboundMessage row (null `sale_id` on no match), then — if the text
stripped and uppercased is exactly `"STOP"` — set `opted_out` to TRUE
on every `sales` row with that phone (the UPDATE targets by phone, so
it is a no-op when no row matches).  The first component of the result
is the database state when the handler returns or raises. -/
def inbound_sms (db : DB) (payload : Json) :
    DB × Except PyErr InboundResponse :=
  match inbound_fields payload with
  | Except.error e => (db, Except.error e)
  | Except.ok (from_phone, body) =>
    match normalize_phone_j from_phone with
    | Except.error e => (db, Except.error e)
    | Except.ok clean_from =>
      let sale_id := (db.sales.find? (fun s => s.phone == clean_from)).map Sale.id
      let db1 := { db with inbound := db.inbound ++
        [{ sale_id := sale_id, from_phone := clean_from, body := body }] }
      match pyStripUpper body with
      | Except.error e => (db1, Except.error e)
      | Except.ok t =>
        if t = "STOP" then
          let stopUpd := fun s => if s.phone == clean_from then
            { s with opted_out := true } else s
          ({ db1 with sales := db1.sales.map stopUpd }, Except.ok { ok := true })
        else
          (db1, Except.ok { ok := true })

/-- One externally triggered handler invocation: a `/api/new-sale`
request (with the gateway outcome its send will observe) or a
`/api/inbound-sms` webhook delivery. -/
inductive Event where
  | newSale (b : SaleRequest) (gw : GatewayOutcome) : Event
  | inboundSms (payload : Json) : Event

/-- The database state after one invocation (whether the handler
responded or raised: the writes made before a raise are committed). -/
def stepDB (db : DB) (e : Event) : DB :=
  match e with
  | Event.newSale b gw => (new_sale db b gw).1
  | Event.inboundSms payload => (inbound_sms db payload).1

/-- Sequential execution of a list of invocations. -/
def runEvents (db : DB) (es : List Event) : DB :=
  es.foldl stepDB db

/-- Well-formedness of a database state, true of every state the
handlers can reach from an empty store: sale ids are below the next
serial id, and ids and phones are pairwise distinct (`new_sale` only
inserts after a failed lookup, so no duplicate phone ever appears). -/
def WF (db : DB) : Prop :=
  (∀ s ∈ db.sales, s.id < db.nextSaleId) ∧
  db.sales.Pairwise (fun a b => a.id ≠ b.id) ∧
  db.sales.Pairwise (fun a b => a.phone ≠ b.phone)

instance : DecidablePred WF := by
  intro db
  unfold WF
  infer_instance

/-- The Phone Normalizer algorithm exactly as the spec words it (§4.1):
strip every non-digit character; exactly 10 digits get `+1` prefixed;
exactly 11 digits whose first digit is `1` get `+` prefixed; any other
digit count gets `+` prefixed onto the raw digit string.  Stated
separately from `normalize_phone` (which is transcribed from
src/main.py:34-41) so the two can be compared. -/
def normalize_phone_spec (raw : Option String) : String :=
  let digits := stripNonDigits (raw.getD "")
  if digits.length = 10 then "+1" ++ digits
  else if digits.length = 11 ∧ digits.data.head? = some '1' then "+" ++ digits
  else "+" ++ digits

/-- C2: `normalize_phone` computes exactly the spec's algorithm on every
input (including `""` and `None`), agrees with the spec's four worked
examples, always starts with `"+"`, and — being a total function — never
fails. -/
theorem normalize_phone_correct :
    (∀ raw, normalize_phone raw = normalize_phone_spec raw) ∧
    normalize_phone (some "555-123-4567") = "+15551234567" ∧
    normalize_phone (some "15551234567") = "+15551234567" ∧
    normalize_phone (some "") = "+" ∧
    normalize_phone none = "+" ∧
    (∀ raw, (normalize_phone raw).data.head? = some '+') := by
  refine ⟨fun raw => rfl, by decide, by decide, by decide, by decide,
    fun raw => ?_⟩
  simp only [normalize_phone]
  split
  · rw [String.data_append]; rfl
  · split
    · rw [String.data_append]; rfl
    · rw [String.data_append]; rfl

/-- C6 counterexample: a 304 response is not a 2xx response, yet
`response.raise_for_status()` only raises for statuses in [400, 600),
so `send_sms_via_telnyx` returns the parsed response body — not the
`FAILED` sentinel — contradicting the claim that any non-2xx response
yields the sentinel. -/
theorem send_sms_non_2xx_counterexample :
    ¬ (200 ≤ 304 ∧ 304 < 300) ∧
    send_sms_via_telnyx (GatewayOutcome.httpResponse 304
      (Json.obj [("data", Json.obj [("id", Json.str "real-id")])])) =
      Json.obj [("data", Json.obj [("id", Json.str "real-id")])] ∧
    Json.obj [("data", Json.obj [("id", Json.str "real-id")])] ≠ failedJson := by
  refine ⟨by decide, rfl, ?_⟩
  simp [failedJson]

/-- C6 (amended): every failure of the try body is a RequestException —
the class the `except` clause catches — so the caller can never observe
a thrown error; a transport error, or a response with a 4xx/5xx status
(the statuses `raise_for_status` raises for), yields the synthetic
`{"data": {"id": "FAILED"}}`; any other response yields the parsed JSON
response body. -/
theorem send_sms_error_contract :
    (∀ o, telnyxTryBody o = Except.error PyErr.requestException ∨
      ∃ j, telnyxTryBody o = Except.ok j) ∧
    send_sms_via_telnyx GatewayOutcome.networkError = failedJson ∧
    (∀ status body, 400 ≤ status → status < 600 →
      send_sms_via_telnyx (GatewayOutcome.httpResponse status body) = failedJson) ∧
    (∀ status body, status < 400 ∨ 600 ≤ status →
      send_sms_via_telnyx (GatewayOutcome.httpResponse status body) = body) := by
  refine ⟨fun o => ?_, rfl, fun s b h1 h2 => ?_, fun s b h => ?_⟩
  · cases o with
    | networkError => exact Or.inl rfl
    | httpResponse s b =>
      by_cases h : 400 ≤ s ∧ s < 600
      · refine Or.inl ?_
        simp only [telnyxTryBody]
        rw [if_pos h]
      · refine Or.inr ⟨b, ?_⟩
        simp only [telnyxTryBody]
        rw [if_neg h]
  · simp only [send_sms_via_telnyx, telnyxTryBody]
    rw [if_pos ⟨h1, h2⟩]
  · simp only [send_sms_via_telnyx, telnyxTryBody]
    have hn : ¬ (400 ≤ s ∧ s < 600) := by omega
    rw [if_neg hn]

/-- Witness for `send_sms_error_contract` at status 404. -/
theorem send_sms_error_contract_witness :
    400 ≤ 404 ∧ 404 < 600 ∧
    send_sms_via_telnyx (GatewayOutcome.httpResponse 404 Json.null) = failedJson :=
  ⟨by decide, by decide,
    send_sms_error_contract.2.2.1 404 Json.null (by decide) (by decide)⟩

/-- C3: when the phone of a `/api/new-sale` request matches a Sale whose
`opted_out` flag is true, the handler responds
`{ok: true, skipped_send: true, reason: "opted_out"}` and leaves the
database completely unchanged (no Sale update, no OutboundMessage
insert); the right-hand side does not mention the gateway outcome `gw`,
so no send is performed either. -/
theorem new_sale_opted_out_skips (db : DB) (b : SaleRequest)
    (gw : GatewayOutcome) (s : Sale)
    (hfind : db.sales.find? (fun t => t.phone == normalize_phone b.phone) = some s)
    (hopt : s.opted_out = true) :
    new_sale db b gw = (db, Except.ok
      { ok := true, sale_id := none, sent_to := none, provider_sid := none,
        skipped_send := true, reason := some "opted_out" }) := by
  simp only [new_sale]
  rw [hfind]
  simp [hopt]

/-- An empty database, next serial id 1. -/
def db0 : DB := ⟨[], [], [], 1⟩

/-- A sale that has opted out, for concrete witnesses. -/
def saleOpted : Sale :=
  ⟨1, some "S1", "+15551234567", some "Jane", some "NY", some "web",
    some "H1", some "Gold", true⟩

/-- A database holding only `saleOpted`. -/
def dbOpted : DB := ⟨[saleOpted], [], [], 2⟩

/-- A concrete `/api/new-sale` request body. -/
def req1 : SaleRequest :=
  ⟨some "5551234567", some "S1", some "Jane", some "NY", some "web",
    some "H1", some "Gold"⟩

/-- A second request for the same phone (differently formatted) with
different mutable fields. -/
def req2 : SaleRequest :=
  ⟨some "555-123-4567", some "S2", some "Bob", some "LA", some "tv",
    some "H2", some "Silver"⟩

/-- A successful gateway outcome carrying provider id `msg-1`. -/
def gwOk : GatewayOutcome :=
  GatewayOutcome.httpResponse 200
    (Json.obj [("data", Json.obj [("id", Json.str "msg-1")])])

/-- Witness for `new_sale_opted_out_skips` on a concrete database. -/
theorem new_sale_opted_out_skips_witness :
    dbOpted.sales.find? (fun t => t.phone == normalize_phone req1.phone) =
      some saleOpted ∧
    saleOpted.opted_out = true ∧
    new_sale dbOpted req1 gwOk = (dbOpted, Except.ok
      { ok := true, sale_id := none, sent_to := none, provider_sid := none,
        skipped_send := true, reason := some "opted_out" }) :=
  ⟨rfl, rfl, new_sale_opted_out_skips dbOpted req1 gwOk saleOpted rfl rfl⟩

/-- A failing gateway call makes `send_sms_via_telnyx` return the
sentinel response. -/
theorem gatewayFails_send (gw : GatewayOutcome) (h : gatewayFails gw = true) :
    send_sms_via_telnyx gw = failedJson := by
  cases gw with
  | networkError => rfl
  | httpResponse s b =>
    simp only [gatewayFails, decide_eq_true_eq] at h
    simp only [send_sms_via_telnyx, telnyxTryBody]
    rw [if_pos h]

/-- Extracting the provider id from the sentinel response yields the
string `"FAILED"`. -/
theorem extract_provider_sid_failed :
    extract_provider_sid failedJson = Except.ok (Json.str "FAILED") := rfl

/-- `sendAndRecord` never touches `sales`, `inbound` or the serial
counter. -/
theorem sendAndRecord_frame (db : DB) (i : Nat) (p : String)
    (gw : GatewayOutcome) :
    ((sendAndRecord db i p gw).1).sales = db.sales ∧
    ((sendAndRecord db i p gw).1).inbound = db.inbound ∧
    ((sendAndRecord db i p gw).1).nextSaleId = db.nextSaleId := by
  cases hx : extract_provider_sid (send_sms_via_telnyx gw) <;>
    simp [sendAndRecord, hx]

/-- Every outbound row present after `sendAndRecord` was already there
or carries the sale id `sendAndRecord` was called with. -/
theorem sendAndRecord_outbound (db : DB) (i : Nat) (p : String)
    (gw : GatewayOutcome) :
    ∀ m ∈ ((sendAndRecord db i p gw).1).outbound,
      m ∈ db.outbound ∨ m.sale_id = i := by
  intro m hm
  cases hx : extract_provider_sid (send_sms_via_telnyx gw) with
  | error e => simp [sendAndRecord, hx] at hm; exact Or.inl hm
  | ok sid =>
    simp [sendAndRecord, hx] at hm
    rcases hm with hm | hm
    · exact Or.inl hm
    · right; rw [hm]

/-- With a failing gateway, `sendAndRecord` appends exactly one
OutboundMessage row recording the `"FAILED"` sentinel and responds with
success anyway. -/
theorem sendAndRecord_failed (db : DB) (i : Nat) (p : String)
    (gw : GatewayOutcome) (h : gatewayFails gw = true) :
    sendAndRecord db i p gw =
      ({ db with outbound := db.outbound ++
          [{ sale_id := i, body := text_msg, provider := "telnyx",
             provider_sid := Json.str "FAILED" }] },
        Except.ok
          { ok := true, sale_id := some i, sent_to := some p,
            provider_sid := some (Json.str "FAILED"), skipped_send := false,
            reason := none }) := by
  simp only [sendAndRecord, gatewayFails_send gw h, extract_provider_sid_failed]

/-- When the phone is unknown, `new_sale` appends the inserted row. -/
theorem new_sale_sales_insert (db : DB) (b : SaleRequest) (gw : GatewayOutcome)
    (h : db.sales.find? (fun s => s.phone == normalize_phone b.phone) = none) :
    (new_sale db b gw).1.sales =
      db.sales ++ [insertedSale db b (normalize_phone b.phone)] := by
  simp only [new_sale]
  rw [h]
  exact (sendAndRecord_frame _ _ _ _).1

/-- When the phone matches a non-opted-out Sale, `new_sale` overwrites
that row's six mutable fields (the UPDATE targets by id). -/
theorem new_sale_sales_update (db : DB) (b : SaleRequest) (gw : GatewayOutcome)
    (s : Sale)
    (h : db.sales.find? (fun t => t.phone == normalize_phone b.phone) = some s)
    (ho : s.opted_out = false) :
    (new_sale db b gw).1.sales =
      db.sales.map (fun t => if t.id == s.id then updFields b t else t) := by
  simp only [new_sale]
  rw [h]
  simp only [ho, Bool.false_eq_true, if_false]
  exact (sendAndRecord_frame _ _ _ _).1

/-- C5: whenever a `/api/new-sale` request reaches the send step (the
phone matches no Sale, or matches one that has not opted out) and the
gateway call fails, the workflow is not aborted: an OutboundMessage row
is still appended with `provider_sid = "FAILED"`, and the handler still
responds `ok: true` (with `provider_sid: "FAILED"` for the caller to
inspect). -/
theorem new_sale_send_failure_durable (db : DB) (b : SaleRequest)
    (gw : GatewayOutcome) (hfail : gatewayFails gw = true)
    (hnopt : ∀ s, db.sales.find? (fun t => t.phone == normalize_phone b.phone) =
      some s → s.opted_out = false) :
    ∃ i, (new_sale db b gw).1.outbound = db.outbound ++
        [{ sale_id := i, body := text_msg, provider := "telnyx",
           provider_sid := Json.str "FAILED" }] ∧
      (new_sale db b gw).2 = Except.ok
        { ok := true, sale_id := some i, sent_to := some (normalize_phone b.phone),
          provider_sid := some (Json.str "FAILED"), skipped_send := false,
          reason := none } := by
  simp only [new_sale]
  cases hf : db.sales.find? (fun t => t.phone == normalize_phone b.phone) with
  | none =>
    refine ⟨db.nextSaleId, ?_, ?_⟩ <;>
      simp [sendAndRecord_failed _ _ _ _ hfail]
  | some s =>
    have ho := hnopt s hf
    refine ⟨s.id, ?_, ?_⟩ <;>
      simp [ho, sendAndRecord_failed _ _ _ _ hfail]

/-- Witness for `new_sale_send_failure_durable`: an empty database and a
transport failure. -/
theorem new_sale_send_failure_durable_witness :
    gatewayFails GatewayOutcome.networkError = true ∧
    (∀ s, db0.sales.find? (fun t => t.phone == normalize_phone req1.phone) =
      some s → s.opted_out = false) ∧
    ∃ i, (new_sale db0 req1 GatewayOutcome.networkError).1.outbound =
        db0.outbound ++
        [{ sale_id := i, body := text_msg, provider := "telnyx",
           provider_sid := Json.str "FAILED" }] ∧
      (new_sale db0 req1 GatewayOutcome.networkError).2 = Except.ok
        { ok := true, sale_id := some i,
          sent_to := some (normalize_phone req1.phone),
          provider_sid := some (Json.str "FAILED"), skipped_send := false,
          reason := none } :=
  ⟨rfl, fun s h => by simp [db0] at h,
    new_sale_send_failure_durable db0 req1 GatewayOutcome.networkError rfl
      (fun s h => by simp [db0] at h)⟩

/-- `updFields` never changes the row's key columns or its opt-out
flag. -/
theorem updFields_frame (b : SaleRequest) (t : Sale) :
    (updFields b t).phone = t.phone ∧ (updFields b t).id = t.id ∧
    (updFields b t).opted_out = t.opted_out :=
  ⟨rfl, rfl, rfl⟩

/-- C1: two sequential `/api/new-sale` calls whose phones normalize to
the same canonical value, the first of which inserted the Sale (no row
for that phone existed before), leave exactly one `sales` row for that
phone.  After the first call that row is the inserted one (serial id
`db.nextSaleId`, `opted_out` false); after the second call it is the
same row — identifier and phone unchanged — with its six mutable fields
overwritten by the second call's values (`updFields b2`). -/
theorem new_sale_idempotent_by_phone (db : DB) (b1 b2 : SaleRequest)
    (g1 g2 : GatewayOutcome)
    (hp : normalize_phone b1.phone = normalize_phone b2.phone)
    (hnone : db.sales.find? (fun s => s.phone == normalize_phone b1.phone) = none) :
    (new_sale db b1 g1).1.sales.filter
        (fun s => s.phone == normalize_phone b1.phone) =
      [insertedSale db b1 (normalize_phone b1.phone)] ∧
    (new_sale (new_sale db b1 g1).1 b2 g2).1.sales.filter
        (fun s => s.phone == normalize_phone b1.phone) =
      [updFields b2 (insertedSale db b1 (normalize_phone b1.phone))] := by
  have hall : ∀ t ∈ db.sales,
      (t.phone == normalize_phone b1.phone) = false := by
    intro t ht
    have h := List.find?_eq_none.mp hnone t ht
    simpa using h
  have hnil : db.sales.filter (fun s => s.phone == normalize_phone b1.phone) = [] :=
    List.filter_eq_nil_iff.mpr (by intro a ha; simp [hall a ha])
  have h1 : (new_sale db b1 g1).1.sales =
      db.sales ++ [insertedSale db b1 (normalize_phone b1.phone)] :=
    new_sale_sales_insert db b1 g1 hnone
  have hs1phone : (insertedSale db b1 (normalize_phone b1.phone)).phone =
      normalize_phone b1.phone := rfl
  constructor
  · rw [h1, List.filter_append, hnil]
    simp [hs1phone]
  · have hfind2 : (new_sale db b1 g1).1.sales.find?
        (fun s => s.phone == normalize_phone b2.phone) =
        some (insertedSale db b1 (normalize_phone b1.phone)) := by
      rw [h1, ← hp, List.find?_append, hnone]
      simp [hs1phone]
    have h2 : (new_sale (new_sale db b1 g1).1 b2 g2).1.sales =
        (new_sale db b1 g1).1.sales.map
          (fun t => if t.id == (insertedSale db b1 (normalize_phone b1.phone)).id
            then updFields b2 t else t) :=
      new_sale_sales_update _ b2 g2 _ hfind2 rfl
    rw [h2, h1, List.map_append, List.filter_append]
    have hmapnil : (db.sales.map
        (fun t => if t.id == (insertedSale db b1 (normalize_phone b1.phone)).id
          then updFields b2 t else t)).filter
        (fun s => s.phone == normalize_phone b1.phone) = [] := by
      refine List.filter_eq_nil_iff.mpr ?_
      intro a ha
      rcases List.mem_map.mp ha with ⟨t, ht, rfl⟩
      by_cases hid : (t.id == (insertedSale db b1 (normalize_phone b1.phone)).id) = true
      · simp [hid, (updFields_frame b2 t).1, hall t ht]
      · simp only [Bool.not_eq_true] at hid
        simp [hid, hall t ht]
    rw [hmapnil]
    simp [(updFields_frame b2 _).1, hs1phone]

/-- Witness for `new_sale_idempotent_by_phone`: `req1` then `req2` on an
empty database — one row, phone `+15551234567`, id 1, second call's
fields. -/
theorem new_sale_idempotent_by_phone_witness :
    normalize_phone req1.phone = normalize_phone req2.phone ∧
    db0.sales.find? (fun s => s.phone == normalize_phone req1.phone) = none ∧
    ((new_sale db0 req1 gwOk).1.sales.filter
        (fun s => s.phone == normalize_phone req1.phone) =
      [insertedSale db0 req1 (normalize_phone req1.phone)] ∧
    (new_sale (new_sale db0 req1 gwOk).1 req2 gwOk).1.sales.filter
        (fun s => s.phone == normalize_phone req1.phone) =
      [updFields req2 (insertedSale db0 req1 (normalize_phone req1.phone))]) :=
  ⟨by decide, rfl,
    new_sale_idempotent_by_phone db0 req1 req2 gwOk gwOk (by decide) rfl⟩

/-- C4: an inbound webhook whose extracted text, stripped and
uppercased, is exactly `"STOP"` (so `"stop"` in any case with
surrounding whitespace qualifies) responds `{ok: true}` and flips
`opted_out` to true on precisely the `sales` rows whose phone is the
normalized sender phone; in particular every row with that phone ends
up opted out.  When no row has that phone, no `sales` row is mutated
and the InboundMessage row is recorded with a null sale reference. -/
theorem inbound_stop_sets_opt_out (db : DB) (payload fromv : Json)
    (txt p : String)
    (hf : inbound_fields payload = Except.ok (fromv, Json.str txt))
    (hn : normalize_phone_j fromv = Except.ok p)
    (hstop : pyUpper (pyStrip txt) = "STOP") :
    (inbound_sms db payload).2 = Except.ok { ok := true } ∧
    (inbound_sms db payload).1.sales =
      db.sales.map
        (fun s => if s.phone == p then { s with opted_out := true } else s) ∧
    (∀ t ∈ (inbound_sms db payload).1.sales, t.phone = p →
      t.opted_out = true) ∧
    ((∀ s ∈ db.sales, s.phone ≠ p) →
      (inbound_sms db payload).1.sales = db.sales ∧
      (inbound_sms db payload).1.inbound = db.inbound ++
        [{ sale_id := none, from_phone := p, body := Json.str txt }]) := by
  have hmain : inbound_sms db payload =
      ({ db with
          sales := db.sales.map
            (fun s => if s.phone == p then { s with opted_out := true } else s)
          inbound := db.inbound ++
            [{ sale_id := (db.sales.find? (fun s => s.phone == p)).map Sale.id,
               from_phone := p, body := Json.str txt }] },
        Except.ok { ok := true }) := by
    simp only [inbound_sms]
    rw [hf]
    simp only [hn]
    simp only [pyStripUpper, hstop]
    simp only [if_true]
  refine ⟨by rw [hmain], by rw [hmain], ?_, ?_⟩
  · intro t ht hphone
    rw [hmain] at ht
    simp only at ht
    rcases List.mem_map.mp ht with ⟨u, hu, rfl⟩
    by_cases hup : (u.phone == p) = true
    · simp [hup]
    · simp only [Bool.not_eq_true] at hup
      simp only [hup, if_false] at hphone ⊢
      exact absurd hphone (by simpa using hup)
  · intro hnomatch
    have hfnone : db.sales.find? (fun s => s.phone == p) = none :=
      List.find?_eq_none.mpr (by intro x hx; simp [hnomatch x hx])
    have hmapid : db.sales.map
        (fun s => if s.phone == p then { s with opted_out := true } else s) =
        db.sales := by
      have := List.map_congr_left (l := db.sales)
        (f := fun s => if s.phone == p then { s with opted_out := true } else s)
        (g := fun s => s)
        (by intro a ha; simp [hnomatch a ha])
      simpa using this
    rw [hmain]
    exact ⟨hmapid, by simp [hfnone]⟩

/-- A sale that has not opted out, for concrete witnesses. -/
def saleActive : Sale :=
  ⟨1, some "S1", "+15551234567", some "Jane", some "NY", some "web",
    some "H1", some "Gold", false⟩

/-- A database holding only `saleActive`. -/
def dbActive : DB := ⟨[saleActive], [], [], 2⟩

/-- A well-formed inbound webhook payload whose text is `" stop "`. -/
def plStop : Json :=
  Json.obj [("data", Json.obj [("payload", Json.obj
    [("from", Json.obj [("phone_number", Json.str "+15551234567")]),
     ("text", Json.str " stop ")])])]

/-- An inbound payload whose `"from"` key is present but null. -/
def plFromNull : Json :=
  Json.obj [("data", Json.obj [("payload", Json.obj [("from", Json.null)])])]

/-- An inbound payload whose `"text"` key is present but null, while
`data` and `data.payload` are objects and `"from"` is absent. -/
def plTextNull : Json :=
  Json.obj [("data", Json.obj [("payload", Json.obj [("text", Json.null)])])]

/-- Witness for `inbound_stop_sets_opt_out`: `" stop "` from the known
phone of `dbActive` opts its sale out. -/
theorem inbound_stop_sets_opt_out_witness :
    inbound_fields plStop =
      Except.ok (Json.str "+15551234567", Json.str " stop ") ∧
    normalize_phone_j (Json.str "+15551234567") =
      Except.ok "+15551234567" ∧
    pyUpper (pyStrip " stop ") = "STOP" ∧
    ((inbound_sms dbActive plStop).2 = Except.ok { ok := true } ∧
     (inbound_sms dbActive plStop).1.sales =
       dbActive.sales.map
         (fun s => if s.phone == "+15551234567" then
           { s with opted_out := true } else s) ∧
     (∀ t ∈ (inbound_sms dbActive plStop).1.sales,
       t.phone = "+15551234567" → t.opted_out = true) ∧
     ((∀ s ∈ dbActive.sales, s.phone ≠ "+15551234567") →
       (inbound_sms dbActive plStop).1.sales = dbActive.sales ∧
       (inbound_sms dbActive plStop).1.inbound = dbActive.inbound ++
         [{ sale_id := none, from_phone := "+15551234567",
            body := Json.str " stop " }])) :=
  ⟨rfl, rfl, by decide,
    inbound_stop_sets_opt_out dbActive plStop (Json.str "+15551234567")
      " stop " "+15551234567" rfl rfl (by decide)⟩

/-- C8 counterexample: the invocation with payload
`{"data": {"payload": {"from": null}}}` creates no InboundMessage row
and raises instead of responding `{ok: true}` — so "exactly one
InboundMessage row per inbound webhook invocation" fails as a statement
about every invocation. -/
theorem inbound_unconditional_ok_counterexample :
    inbound_sms db0 plFromNull = (db0, Except.error PyErr.other) ∧
    db0.inbound.length = 0 :=
  ⟨rfl, rfl⟩

/-- C8 (amended): every inbound webhook invocation that completes (does
not raise) appends exactly one InboundMessage row — carrying the
normalized sender phone, the extracted message text, and a sale
reference that is null exactly when no Sale has that phone — writes no
OutboundMessage, and responds with the constant `{ok: true}`: the same
response whether or not the sender phone matched a Sale. -/
theorem inbound_completed_one_row (db : DB) (payload : Json) (db' : DB)
    (r : InboundResponse)
    (h : inbound_sms db payload = (db', Except.ok r)) :
    r = { ok := true } ∧
    db'.outbound = db.outbound ∧
    ∃ fp tv p, inbound_fields payload = Except.ok (fp, tv) ∧
      normalize_phone_j fp = Except.ok p ∧
      db'.inbound = db.inbound ++
        [{ sale_id := (db.sales.find? (fun s => s.phone == p)).map Sale.id,
           from_phone := p, body := tv }] := by
  cases hx : inbound_fields payload with
  | error e =>
    simp only [inbound_sms, hx] at h
    injection h with h1 h2
    exact Except.noConfusion h2
  | ok pr =>
    obtain ⟨fp, tv⟩ := pr
    cases hn : normalize_phone_j fp with
    | error e =>
      simp only [inbound_sms, hx, hn] at h
      injection h with h1 h2
      exact Except.noConfusion h2
    | ok p =>
      cases hs : pyStripUpper tv with
      | error e =>
        simp only [inbound_sms, hx, hn, hs] at h
        injection h with h1 h2
        exact Except.noConfusion h2
      | ok t =>
        simp only [inbound_sms, hx, hn, hs] at h
        split at h <;>
        · injection h with h1 h2
          injection h2 with h3
          subst h1
          exact ⟨h3.symm, rfl, fp, tv, p, rfl, hn, rfl⟩


/-- The InboundMessage row the `plStop` webhook writes on an empty
database. -/
def stopRow : InboundMessage :=
  { sale_id := none, from_phone := "+15551234567", body := Json.str " stop " }

/-- The database state after delivering `plStop` to `db0`. -/
def dbAfterStop : DB := { db0 with inbound := [stopRow] }

/-- Witness for `inbound_completed_one_row` on a concrete completed
invocation. -/
theorem inbound_completed_one_row_witness :
    inbound_sms db0 plStop = (dbAfterStop, Except.ok { ok := true }) ∧
    (({ ok := true } : InboundResponse) = { ok := true } ∧
      dbAfterStop.outbound = db0.outbound ∧
      ∃ fp tv p, inbound_fields plStop = Except.ok (fp, tv) ∧
        normalize_phone_j fp = Except.ok p ∧
        dbAfterStop.inbound = db0.inbound ++
          [{ sale_id := (db0.sales.find? (fun s => s.phone == p)).map Sale.id,
             from_phone := p, body := tv }]) :=
  ⟨rfl, inbound_completed_one_row db0 plStop dbAfterStop { ok := true } rfl⟩

/-- A `from.phone_number` value `inbound_sms` survives: absent keys
aside, only null (falsy, replaced by `""`) or a string reach `re.sub`
without a TypeError. -/
def phoneOk (v : Json) : Bool :=
  match v with
  | Json.null => true
  | Json.str _ => true
  | _ => false

/-- A `text` value `inbound_sms` survives: only a string has `.strip()`. -/
def textOk (v : Json) : Bool :=
  match v with
  | Json.str _ => true
  | _ => false

/-- The payload shapes `inbound_sms` tolerates: a JSON object in which
`data`, `data.payload` and `from` are each absent or objects,
`from.phone_number` is absent, null or a string, and `text` is absent
or a string. -/
def wellShaped (payload : Json) : Bool :=
  match payload with
  | Json.obj fs =>
    match fs.lookup "data" with
    | none => true
    | some (Json.obj gs) =>
      match gs.lookup "payload" with
      | none => true
      | some (Json.obj hs) =>
        (match hs.lookup "from" with
         | none => true
         | some (Json.obj ks) =>
           match ks.lookup "phone_number" with
           | none => true
           | some v => phoneOk v
         | some _ => false) &&
        (match hs.lookup "text" with
         | none => true
         | some v => textOk v)
      | some _ => false
    | some _ => false
  | _ => false

/-- A survivable phone value normalizes without raising. -/
theorem normalize_phone_j_ok (fp : Json) (h : phoneOk fp = true) :
    ∃ q, normalize_phone_j fp = Except.ok q := by
  cases fp with
  | null => exact ⟨_, rfl⟩
  | str s =>
    simp only [normalize_phone_j]
    split
    · exact ⟨_, rfl⟩
    · exact ⟨_, rfl⟩
  | bool b => simp [phoneOk] at h
  | num n => simp [phoneOk] at h
  | arr xs => simp [phoneOk] at h
  | obj fs => simp [phoneOk] at h

/-- If the field extraction succeeds with a survivable phone value and a
string text value, `inbound_sms` completes with `{ok: true}`. -/
theorem inbound_sms_ok (db : DB) (pl : Json) (fp tv : Json)
    (hf : inbound_fields pl = Except.ok (fp, tv))
    (hph : phoneOk fp = true) (htx : textOk tv = true) :
    (inbound_sms db pl).2 = Except.ok { ok := true } := by
  obtain ⟨q, hq⟩ := normalize_phone_j_ok fp hph
  rcases tv with _ | b | n | s2 | xs | fs2 <;> simp [textOk] at htx
  simp only [inbound_sms, hf, hq, pyStripUpper]
  split <;> rfl

/-- Every well-shaped payload's field extraction succeeds and yields
survivable phone and text values. -/
theorem wellShaped_fields (pl : Json) (h : wellShaped pl = true) :
    ∃ fp tv, inbound_fields pl = Except.ok (fp, tv) ∧
      phoneOk fp = true ∧ textOk tv = true := by
  rcases pl with _ | b | n | s | xs | fs <;> simp only [wellShaped] at h
  case obj =>
    rcases hd : fs.lookup "data" with _ | dv
    · exact ⟨Json.null, Json.str "",
        by simp [inbound_fields, pyGet, hd], rfl, rfl⟩
    · rcases dv with _ | b2 | n2 | s2 | xs2 | gs <;> simp only [hd] at h <;>
        try exact Bool.noConfusion h
      rcases hp : gs.lookup "payload" with _ | pv
      · exact ⟨Json.null, Json.str "",
          by simp [inbound_fields, pyGet, hd, hp], rfl, rfl⟩
      · rcases pv with _ | b3 | n3 | s3 | xs3 | hs <;> simp only [hp] at h <;>
          try exact Bool.noConfusion h
        rw [Bool.and_eq_true] at h
        obtain ⟨h1, h2⟩ := h
        rcases hfrom : hs.lookup "from" with _ | fv
        · rcases htext : hs.lookup "text" with _ | tvv
          · exact ⟨Json.null, Json.str "",
              by simp [inbound_fields, pyGet, hd, hp, hfrom, htext], rfl, rfl⟩
          · simp only [htext] at h2
            exact ⟨Json.null, tvv,
              by simp [inbound_fields, pyGet, hd, hp, hfrom, htext], rfl, h2⟩
        · rcases fv with _ | b4 | n4 | s4 | xs4 | ks <;>
            simp only [hfrom] at h1 <;> try exact Bool.noConfusion h1
          rcases hping : ks.lookup "phone_number" with _ | pn
          · rcases htext : hs.lookup "text" with _ | tvv
            · exact ⟨Json.null, Json.str "",
                by simp [inbound_fields, pyGet, hd, hp, hfrom, hping, htext],
                rfl, rfl⟩
            · simp only [htext] at h2
              exact ⟨Json.null, tvv,
                by simp [inbound_fields, pyGet, hd, hp, hfrom, hping, htext],
                rfl, h2⟩
          · simp only [hping] at h1
            rcases htext : hs.lookup "text" with _ | tvv
            · exact ⟨pn, Json.str "",
                by simp [inbound_fields, pyGet, hd, hp, hfrom, hping, htext],
                h1, rfl⟩
            · simp only [htext] at h2
              exact ⟨pn, tvv,
                by simp [inbound_fields, pyGet, hd, hp, hfrom, hping, htext],
                h1, h2⟩
  all_goals exact Bool.noConfusion h

/-- C9 counterexample: in `plTextNull` the `data` and `data.payload`
values are JSON objects and `"from"` is absent — the claim's hypothesis
— yet the handler raises (at `body.strip()`, because `"text"` is
present and null) after inserting the InboundMessage row, instead of
responding `{ok: true}`. -/
theorem inbound_null_text_counterexample :
    pyGet plTextNull "data" (Json.obj []) =
      Except.ok (Json.obj [("payload", Json.obj [("text", Json.null)])]) ∧
    pyGet (Json.obj [("payload", Json.obj [("text", Json.null)])]) "payload"
      (Json.obj []) = Except.ok (Json.obj [("text", Json.null)]) ∧
    ([("text", Json.null)] : List (String × Json)).lookup "from" = none ∧
    (inbound_sms db0 plTextNull).1.inbound.length = 1 ∧
    (inbound_sms db0 plTextNull).2 = Except.error PyErr.other :=
  ⟨rfl, rfl, rfl, rfl, rfl⟩

/-- C9 (amended): the handler's tolerance covers exactly the well-shaped
payloads — `data`, `data.payload`, `from` absent or objects,
`from.phone_number` absent, null or a string, and `text` absent or a
string: all of those complete with `{ok: true}`; a key present with a
JSON null where an object or string is consumed (e.g.
`{"data": {"payload": {"from": null}}}`) makes the handler raise
instead of responding. -/
theorem inbound_null_vs_absent :
    (∀ (db : DB) (pl : Json), wellShaped pl = true →
      (inbound_sms db pl).2 = Except.ok { ok := true }) ∧
    (inbound_sms db0 plFromNull).2 = Except.error PyErr.other := by
  refine ⟨fun db pl h => ?_, rfl⟩
  obtain ⟨fp, tv, hf, hph, htx⟩ := wellShaped_fields pl h
  exact inbound_sms_ok db pl fp tv hf hph htx

/-- Witness for `inbound_null_vs_absent` on the well-shaped `plStop`. -/
theorem inbound_null_vs_absent_witness :
    wellShaped plStop = true ∧
    (inbound_sms db0 plStop).2 = Except.ok { ok := true } :=
  ⟨rfl, inbound_null_vs_absent.1 db0 plStop rfl⟩

/-- The request's phone field strips to no digits at all: absent, null,
or a string with no digit characters. -/
def digitFree (raw : Option String) : Prop :=
  (raw.getD "").data.filter Char.isDigit = []

instance : DecidablePred digitFree := by
  intro raw
  unfold digitFree
  infer_instance

/-- A `"+"`-keyed Sale that has opted out. -/
def salePlusOpted : Sale := ⟨1, none, "+", none, none, none, none, none, true⟩

/-- A database holding only `salePlusOpted`. -/
def dbPlusOpted : DB := ⟨[salePlusOpted], [], [], 2⟩

/-- A `/api/new-sale` request with no phone field at all. -/
def reqNoPhone : SaleRequest :=
  ⟨none, some "S9", some "Ann", none, none, none, none⟩

/-- C10 counterexample: a digit-free submission against a database whose
shared `"+"` row has opted out neither creates nor updates any Sale row
— the handler short-circuits, leaving the database untouched — so "the
request creates or updates a Sale row keyed by phone +" fails. -/
theorem new_sale_digit_free_counterexample :
    normalize_phone reqNoPhone.phone = "+" ∧
    (new_sale dbPlusOpted reqNoPhone gwOk).1 = dbPlusOpted ∧
    (new_sale dbPlusOpted reqNoPhone gwOk).2 = Except.ok
      { ok := true, sale_id := none, sent_to := none, provider_sid := none,
        skipped_send := true, reason := some "opted_out" } :=
  ⟨rfl, rfl, rfl⟩

/-- `sendAndRecord` raises only the error the provider-id extraction
raises; nothing else in the send step can fail. -/
theorem sendAndRecord_error (db : DB) (i : Nat) (p : String)
    (gw : GatewayOutcome) (e : PyErr)
    (h : (sendAndRecord db i p gw).2 = Except.error e) :
    extract_provider_sid (send_sms_via_telnyx gw) = Except.error e := by
  cases hx : extract_provider_sid (send_sms_via_telnyx gw) with
  | error a =>
    simp only [sendAndRecord, hx] at h
    injection h with h1
    rw [h1]
  | ok sid =>
    simp only [sendAndRecord, hx] at h
    exact Except.noConfusion h

/-- C10 (amended): a `/api/new-sale` request whose phone field is
absent, null or digit-free normalizes to the canonical value `"+"` and
is keyed by the single shared `"+"` Sale row: if that row exists and
has opted out the handler short-circuits without writing; if it exists
and has not opted out its six mutable fields are overwritten in place;
if it does not exist it is created with phone `"+"`.  The phone value
itself never causes an error: any error of the handler is the
provider-id extraction's error on the gateway response, which does not
depend on the request. -/
theorem new_sale_digit_free_collapses (db : DB) (b : SaleRequest)
    (gw : GatewayOutcome) (h : digitFree b.phone) :
    normalize_phone b.phone = "+" ∧
    (∀ e, (new_sale db b gw).2 = Except.error e →
      extract_provider_sid (send_sms_via_telnyx gw) = Except.error e) ∧
    (match db.sales.find? (fun s => s.phone == "+") with
     | some s =>
       if s.opted_out then (new_sale db b gw).1 = db
       else (new_sale db b gw).1.sales =
         db.sales.map (fun t => if t.id == s.id then updFields b t else t)
     | none => (new_sale db b gw).1.sales =
         db.sales ++ [insertedSale db b "+"]) := by
  have h1 : normalize_phone b.phone = "+" := by
    unfold digitFree at h
    simp only [normalize_phone, stripNonDigits, h]
    decide
  refine ⟨h1, fun e he => ?_, ?_⟩
  · simp only [new_sale, h1] at he
    cases hf2 : db.sales.find? (fun s => s.phone == "+") with
    | none =>
      simp only [hf2] at he
      exact sendAndRecord_error _ _ _ _ e he
    | some s =>
      simp only [hf2] at he
      by_cases ho : s.opted_out = true
      · simp only [ho, if_true] at he
        exact Except.noConfusion he
      · simp only [Bool.not_eq_true] at ho
        simp only [ho, Bool.false_eq_true, if_false] at he
        exact sendAndRecord_error _ _ _ _ e he
  · cases hf2 : db.sales.find? (fun s => s.phone == "+") with
    | none =>
      have hf2' : db.sales.find? (fun s => s.phone == normalize_phone b.phone) =
          none := by rw [h1]; exact hf2
      have := new_sale_sales_insert db b gw hf2'
      rw [h1] at this
      exact this
    | some s =>
      by_cases ho : s.opted_out = true
      · simp only [ho, if_true]
        simp only [new_sale, h1, hf2, ho, if_true]
      · simp only [Bool.not_eq_true] at ho
        simp only [ho, Bool.false_eq_true, if_false]
        have hf2' : db.sales.find? (fun s => s.phone == normalize_phone b.phone) =
            some s := by rw [h1]; exact hf2
        exact new_sale_sales_update db b gw s hf2' ho

/-- Witness for `new_sale_digit_free_collapses`: a phoneless request on
an empty database creates the shared `"+"` row. -/
theorem new_sale_digit_free_collapses_witness :
    digitFree reqNoPhone.phone ∧
    (normalize_phone reqNoPhone.phone = "+" ∧
      (∀ e, (new_sale db0 reqNoPhone gwOk).2 = Except.error e →
        extract_provider_sid (send_sms_via_telnyx gwOk) = Except.error e) ∧
      (match db0.sales.find? (fun s => s.phone == "+") with
       | some s =>
         if s.opted_out then (new_sale db0 reqNoPhone gwOk).1 = db0
         else (new_sale db0 reqNoPhone gwOk).1.sales =
           db0.sales.map (fun t => if t.id == s.id then updFields reqNoPhone t else t)
       | none => (new_sale db0 reqNoPhone gwOk).1.sales =
           db0.sales ++ [insertedSale db0 reqNoPhone "+"])) :=
  ⟨by decide, new_sale_digit_free_collapses db0 reqNoPhone gwOk (by decide)⟩

/-- The three paths of `new_sale` and their effect on the store:
opt-out skip (no change), in-place update (fields overwritten by id,
serial unchanged, any new outbound row carries that sale's id), or
insert (row appended with the next serial id, serial bumped, any new
outbound row carries the new id). -/
theorem new_sale_cases (db : DB) (b : SaleRequest) (gw : GatewayOutcome) :
    (∃ s, db.sales.find? (fun t => t.phone == normalize_phone b.phone) = some s ∧
      s.opted_out = true ∧ (new_sale db b gw).1 = db) ∨
    (∃ s, db.sales.find? (fun t => t.phone == normalize_phone b.phone) = some s ∧
      s.opted_out = false ∧
      (new_sale db b gw).1.sales =
        db.sales.map (fun t => if t.id == s.id then updFields b t else t) ∧
      (new_sale db b gw).1.nextSaleId = db.nextSaleId ∧
      (∀ m ∈ (new_sale db b gw).1.outbound, m ∈ db.outbound ∨ m.sale_id = s.id)) ∨
    (db.sales.find? (fun t => t.phone == normalize_phone b.phone) = none ∧
      (new_sale db b gw).1.sales =
        db.sales ++ [insertedSale db b (normalize_phone b.phone)] ∧
      (new_sale db b gw).1.nextSaleId = db.nextSaleId + 1 ∧
      (∀ m ∈ (new_sale db b gw).1.outbound,
        m ∈ db.outbound ∨ m.sale_id = db.nextSaleId)) := by
  cases hf : db.sales.find? (fun t => t.phone == normalize_phone b.phone) with
  | some s =>
    by_cases ho : s.opted_out = true
    · refine Or.inl ⟨s, rfl, ho, ?_⟩
      simp [new_sale, hf, ho]
    · simp only [Bool.not_eq_true] at ho
      refine Or.inr (Or.inl ⟨s, rfl, ho, ?_, ?_, ?_⟩)
      · exact new_sale_sales_update db b gw s hf ho
      · simp only [new_sale, hf, ho, Bool.false_eq_true, if_false]
        exact (sendAndRecord_frame _ _ _ _).2.2
      · intro m hm
        simp only [new_sale, hf, ho, Bool.false_eq_true, if_false] at hm
        rcases sendAndRecord_outbound _ _ _ _ m hm with h' | h'
        · exact Or.inl h'
        · exact Or.inr h'
  | none =>
    refine Or.inr (Or.inr ⟨rfl, new_sale_sales_insert db b gw hf, ?_, ?_⟩)
    · simp only [new_sale, hf]
      rw [(sendAndRecord_frame _ _ _ _).2.2]
    · intro m hm
      simp only [new_sale, hf] at hm
      rcases sendAndRecord_outbound _ _ _ _ m hm with h' | h'
      · exact Or.inl h'
      · exact Or.inr h'

/-- `inbound_sms` writes no OutboundMessage, never bumps the serial,
and either leaves `sales` alone or sets `opted_out := true` on the rows
matching one phone. -/
theorem inbound_sms_cases (db : DB) (payload : Json) :
    ((inbound_sms db payload).1.sales = db.sales ∨
      ∃ p, (inbound_sms db payload).1.sales =
        db.sales.map
          (fun s => if s.phone == p then { s with opted_out := true } else s)) ∧
    (inbound_sms db payload).1.outbound = db.outbound ∧
    (inbound_sms db payload).1.nextSaleId = db.nextSaleId := by
  cases hx : inbound_fields payload with
  | error e => simp [inbound_sms, hx]
  | ok pr =>
    obtain ⟨fp, tv⟩ := pr
    cases hn : normalize_phone_j fp with
    | error e => simp [inbound_sms, hx, hn]
    | ok p =>
      cases hs : pyStripUpper tv with
      | error e => simp [inbound_sms, hx, hn, hs]
      | ok t =>
        by_cases ht : t = "STOP"
        · refine ⟨Or.inr ⟨p, ?_⟩, ?_, ?_⟩ <;> simp [inbound_sms, hx, hn, hs, ht]
        · refine ⟨Or.inl ?_, ?_, ?_⟩ <;> simp [inbound_sms, hx, hn, hs, ht]

/-- Mapping a function that preserves ids and phones over the `sales`
list preserves well-formedness of the components. -/
theorem map_sales_WF (l : List Sale) (n : Nat) (g : Sale → Sale)
    (hid : ∀ t, (g t).id = t.id) (hph : ∀ t, (g t).phone = t.phone)
    (h1 : ∀ x ∈ l, x.id < n)
    (h2 : l.Pairwise (fun a b => a.id ≠ b.id))
    (h3 : l.Pairwise (fun a b => a.phone ≠ b.phone)) :
    (∀ x ∈ l.map g, x.id < n) ∧
    (l.map g).Pairwise (fun a b => a.id ≠ b.id) ∧
    (l.map g).Pairwise (fun a b => a.phone ≠ b.phone) := by
  refine ⟨?_, ?_, ?_⟩
  · intro x hx
    rcases List.mem_map.mp hx with ⟨t, ht, rfl⟩
    rw [hid]
    exact h1 t ht
  · rw [List.pairwise_map]
    exact h2.imp (fun {a b} hab => by rw [hid a, hid b]; exact hab)
  · rw [List.pairwise_map]
    exact h3.imp (fun {a b} hab => by rw [hph a, hph b]; exact hab)

/-- Appending a fresh row (serial id, phone not yet present) preserves
well-formedness of the components with the serial bumped. -/
theorem append_sale_WF (l : List Sale) (n : Nat) (u : Sale)
    (hnid : u.id = n)
    (hnph : ∀ x ∈ l, x.phone ≠ u.phone)
    (h1 : ∀ x ∈ l, x.id < n)
    (h2 : l.Pairwise (fun a b => a.id ≠ b.id))
    (h3 : l.Pairwise (fun a b => a.phone ≠ b.phone)) :
    (∀ x ∈ l ++ [u], x.id < n + 1) ∧
    (l ++ [u]).Pairwise (fun a b => a.id ≠ b.id) ∧
    (l ++ [u]).Pairwise (fun a b => a.phone ≠ b.phone) := by
  refine ⟨?_, ?_, ?_⟩
  · intro x hx
    rcases List.mem_append.mp hx with hx | hx
    · exact Nat.lt_trans (h1 x hx) (Nat.lt_succ_self n)
    · rcases List.mem_singleton.mp hx with rfl
      rw [hnid]
      exact Nat.lt_succ_self n
  · rw [List.pairwise_append]
    refine ⟨h2, List.pairwise_singleton _ _, ?_⟩
    intro a ha x hx
    rcases List.mem_singleton.mp hx with rfl
    rw [hnid]
    exact Nat.ne_of_lt (h1 a ha)
  · rw [List.pairwise_append]
    refine ⟨h3, List.pairwise_singleton _ _, ?_⟩
    intro a ha x hx
    rcases List.mem_singleton.mp hx with rfl
    exact hnph a ha

/-- One handler invocation preserves well-formedness of the store. -/
theorem step_WF (db : DB) (e : Event) (hwf : WF db) : WF (stepDB db e) := by
  obtain ⟨h1, h2, h3⟩ := hwf
  cases e with
  | newSale b gw =>
    rcases new_sale_cases db b gw with ⟨s, hf, ho, hdb⟩ |
      ⟨s, hf, ho, hsales, hnext, hout⟩ | ⟨hf, hsales, hnext, hout⟩
    · show WF (new_sale db b gw).1
      rw [hdb]
      exact ⟨h1, h2, h3⟩
    · show WF (new_sale db b gw).1
      have hres := map_sales_WF db.sales db.nextSaleId
        (fun t => if t.id == s.id then updFields b t else t)
        (fun t => by by_cases hc : (t.id == s.id) = true <;> simp [hc, updFields])
        (fun t => by by_cases hc : (t.id == s.id) = true <;> simp [hc, updFields])
        h1 h2 h3
      exact ⟨by rw [hsales, hnext]; exact hres.1,
        by rw [hsales]; exact hres.2.1,
        by rw [hsales]; exact hres.2.2⟩
    · show WF (new_sale db b gw).1
      have hfr : ∀ x ∈ db.sales,
          x.phone ≠ (insertedSale db b (normalize_phone b.phone)).phone := by
        intro x hx
        have := List.find?_eq_none.mp hf x hx
        simpa [insertedSale] using this
      have hres := append_sale_WF db.sales db.nextSaleId
        (insertedSale db b (normalize_phone b.phone)) rfl hfr h1 h2 h3
      exact ⟨by rw [hsales, hnext]; exact hres.1,
        by rw [hsales]; exact hres.2.1,
        by rw [hsales]; exact hres.2.2⟩
  | inboundSms payload =>
    obtain ⟨hsales, hout, hnext⟩ := inbound_sms_cases db payload
    show WF (inbound_sms db payload).1
    rcases hsales with hsales | ⟨p, hsales⟩
    · exact ⟨by rw [hsales, hnext]; exact h1,
        by rw [hsales]; exact h2, by rw [hsales]; exact h3⟩
    · have hres := map_sales_WF db.sales db.nextSaleId
        (fun s => if s.phone == p then { s with opted_out := true } else s)
        (fun t => by by_cases hc : (t.phone == p) = true <;> simp [hc])
        (fun t => by by_cases hc : (t.phone == p) = true <;> simp [hc])
        h1 h2 h3
      exact ⟨by rw [hsales, hnext]; exact hres.1,
        by rw [hsales]; exact hres.2.1,
        by rw [hsales]; exact hres.2.2⟩

/-- One invocation can never un-set an opted-out Sale (the same id and
phone survive with the flag still true) and can never create an
OutboundMessage row for it. -/
theorem step_opt (db : DB) (e : Event) (s : Sale)
    (hwf : WF db) (hs : s ∈ db.sales) (ho : s.opted_out = true) :
    (∃ t ∈ (stepDB db e).sales,
      t.id = s.id ∧ t.phone = s.phone ∧ t.opted_out = true) ∧
    (∀ m ∈ (stepDB db e).outbound, m ∈ db.outbound ∨ m.sale_id ≠ s.id) := by
  obtain ⟨h1, h2, h3⟩ := hwf
  cases e with
  | newSale b gw =>
    simp only [stepDB]
    rcases new_sale_cases db b gw with ⟨u, hf, huo, hdb⟩ |
      ⟨u, hf, huo, hsales, hnext, hout⟩ | ⟨hf, hsales, hnext, hout⟩
    · rw [hdb]
      exact ⟨⟨s, hs, rfl, rfl, ho⟩, fun m hm => Or.inl hm⟩
    · have hneq : s ≠ u := by
        intro h
        rw [h] at ho
        rw [ho] at huo
        exact Bool.noConfusion huo
      have hfmem : u ∈ db.sales := List.mem_of_find?_eq_some hf
      have hid_ne : s.id ≠ u.id :=
        List.Pairwise.forall (R := fun a b => a.id ≠ b.id)
          (fun _ _ h => Ne.symm h) h2 hs hfmem hneq
      constructor
      · refine ⟨s, ?_, rfl, rfl, ho⟩
        rw [hsales]
        refine List.mem_map.mpr ⟨s, hs, ?_⟩
        have hb : (s.id == u.id) = false := by
          simp [hid_ne]
        simp [hb]
      · intro m hm
        rcases hout m hm with h' | h'
        · exact Or.inl h'
        · right
          rw [h']
          exact Ne.symm hid_ne
    · constructor
      · refine ⟨s, ?_, rfl, rfl, ho⟩
        rw [hsales]
        exact List.mem_append_left _ hs
      · intro m hm
        rcases hout m hm with h' | h'
        · exact Or.inl h'
        · right
          rw [h']
          exact Ne.symm (Nat.ne_of_lt (h1 s hs))
  | inboundSms payload =>
    simp only [stepDB]
    obtain ⟨hsalesOr, hout, hnext⟩ := inbound_sms_cases db payload
    constructor
    · rcases hsalesOr with hsales | ⟨p, hsales⟩
      · exact ⟨s, by rw [hsales]; exact hs, rfl, rfl, ho⟩
      · rw [hsales]
        by_cases hc : (s.phone == p) = true
        · exact ⟨{ s with opted_out := true },
            List.mem_map.mpr ⟨s, hs, by simp [hc]⟩, rfl, rfl, rfl⟩
        · simp only [Bool.not_eq_true] at hc
          exact ⟨s, List.mem_map.mpr ⟨s, hs, by simp [hc]⟩, rfl, rfl, ho⟩
    · intro m hm
      rw [hout] at hm
      exact Or.inl hm

/-- Sequential execution preserves well-formedness. -/
theorem runEvents_WF (es : List Event) :
    ∀ db, WF db → WF (runEvents db es) := by
  induction es with
  | nil => intro db h; exact h
  | cons e es ih => intro db h; exact ih (stepDB db e) (step_WF db e h)

/-- Induction of `step_opt` over an event sequence. -/
theorem opt_out_sticky_aux (es : List Event) :
    ∀ (db : DB) (s : Sale), WF db → s ∈ db.sales → s.opted_out = true →
    (∃ t ∈ (runEvents db es).sales,
      t.id = s.id ∧ t.phone = s.phone ∧ t.opted_out = true) ∧
    (∀ m ∈ (runEvents db es).outbound, m ∈ db.outbound ∨ m.sale_id ≠ s.id) := by
  induction es with
  | nil =>
    intro db s hwf hs ho
    exact ⟨⟨s, hs, rfl, rfl, ho⟩, fun m hm => Or.inl hm⟩
  | cons e es ih =>
    intro db s hwf hs ho
    obtain ⟨⟨t, ht, htid, htph, hto⟩, houts⟩ := step_opt db e s hwf hs ho
    obtain ⟨⟨u, hu, huid, huph, huo⟩, houts'⟩ :=
      ih (stepDB db e) t (step_WF db e hwf) ht hto
    refine ⟨⟨u, hu, ?_, ?_, huo⟩, ?_⟩
    · rw [huid, htid]
    · rw [huph, htph]
    · intro m hm
      rcases houts' m hm with hmem | hne
      · exact houts m hmem
      · right
        rw [htid] at hne
        exact hne

/-- C7: opt-out is permanent and suppressing.  Starting from any
well-formed store holding an opted-out Sale, after any sequence of
`/api/new-sale` and `/api/inbound-sms` invocations: a row with the same
id and phone is still present and still opted out; every row with that
phone is that row, still opted out (no operation ever resets the flag —
the new-sale UPDATE does not list `opted_out` and the only writer sets
it to TRUE); and no OutboundMessage row beyond those already present
carries that Sale's id — no later message is ever sent to its phone. -/
theorem opt_out_permanent (db : DB) (s : Sale) (es : List Event)
    (hwf : WF db) (hs : s ∈ db.sales) (ho : s.opted_out = true) :
    (∃ t ∈ (runEvents db es).sales,
      t.id = s.id ∧ t.phone = s.phone ∧ t.opted_out = true) ∧
    (∀ t ∈ (runEvents db es).sales, t.phone = s.phone →
      t.id = s.id ∧ t.opted_out = true) ∧
    (∀ m ∈ (runEvents db es).outbound, m ∈ db.outbound ∨ m.sale_id ≠ s.id) := by
  obtain ⟨⟨u, hu, huid, huph, huo⟩, houts⟩ := opt_out_sticky_aux es db s hwf hs ho
  have hwf' := runEvents_WF es db hwf
  refine ⟨⟨u, hu, huid, huph, huo⟩, ?_, houts⟩
  intro t ht htph
  by_cases hteq : t = u
  · subst hteq
    exact ⟨huid, huo⟩
  · exfalso
    have hne := List.Pairwise.forall (R := fun a b => a.phone ≠ b.phone)
      (fun _ _ h => Ne.symm h) hwf'.2.2 ht hu hteq
    exact hne (by rw [htph, huph])

/-- A concrete event sequence: a resubmission for the opted-out phone,
then a STOP webhook. -/
def evs : List Event := [Event.newSale req2 gwOk, Event.inboundSms plStop]

/-- Witness for `opt_out_permanent` at a concrete store and sequence. -/
theorem opt_out_permanent_witness :
    WF dbOpted ∧ saleOpted ∈ dbOpted.sales ∧ saleOpted.opted_out = true ∧
    ((∃ t ∈ (runEvents dbOpted evs).sales,
        t.id = saleOpted.id ∧ t.phone = saleOpted.phone ∧
        t.opted_out = true) ∧
      (∀ t ∈ (runEvents dbOpted evs).sales, t.phone = saleOpted.phone →
        t.id = saleOpted.id ∧ t.opted_out = true) ∧
      (∀ m ∈ (runEvents dbOpted evs).outbound,
        m ∈ dbOpted.outbound ∨ m.sale_id ≠ saleOpted.id)) :=
  ⟨by decide, by decide, rfl,
    opt_out_permanent dbOpted saleOpted evs (by decide) (by decide) rfl⟩
